import Mathlib

/-!
Verification of the WebSocket subscription multiplexer and connection
lifecycle manager of the ekiden-rust-sdk repository (src/ws.rs, with the
wire types from src/types.rs and the error enum from src/error.rs).

The Rust code is async; the embedding passes state explicitly and models
the outcomes of external effects (the transport handshake in `connect`,
the sink send in `send_request`, the tokio broadcast `recv`) as input
parameters. A fan-out endpoint (tokio `broadcast::Sender`) is identified
by a natural-number handle; a push onto an endpoint is recorded as a
`Delivery` pair.
-/

namespace EkidenWs

/-- `ConnectionStatus` enum from src/ws.rs. -/
inductive ConnectionStatus
  | Disconnected
  | Connecting
  | Connected
  | Reconnecting
  | Failed (reason : String)
  deriving DecidableEq, Repr

/-- `EkidenError` enum from src/error.rs. Payloads of external library error
types are modelled as their display strings. -/
inductive EkidenError
  | Http (msg : String)
  | WebSocket (msg : String)
  | Tungstenite (msg : String)
  | Json (msg : String)
  | Auth (msg : String)
  | Config (msg : String)
  | Crypto (msg : String)
  | Api (status : Nat) (message : String)
  | Network (msg : String)
  | Validation (msg : String)
  | IoError (msg : String)
  | UrlParse (msg : String)
  | General (msg : String)
  | Timeout
  | ConnectionClosed
  | RateLimit
  | Aptos (msg : String)
  deriving DecidableEq, Repr

/-- `OrderbookLevel` struct from src/types.rs. -/
structure OrderbookLevel where
  price : Nat
  size : Nat
  deriving DecidableEq, Repr

/-- `WsEvent` enum from src/types.rs. The nested REST response payloads of the
last three variants (OrderResponse, PositionResponse, VaultResponse) belong to
the excluded REST type layer and are passed through unchanged by the core, so
they are modelled as opaque strings. -/
inductive WsEvent
  | OrderbookSnapshot (market_addr : String) (bids : List OrderbookLevel)
      (asks : List OrderbookLevel) (timestamp : Nat)
  | OrderbookUpdate (market_addr : String) (bids : List OrderbookLevel)
      (asks : List OrderbookLevel) (timestamp : Nat)
  | Trade (market_addr : String) (price : Nat) (size : Nat) (side : String)
      (timestamp : Nat)
  | OrderUpdate (order : String)
  | PositionUpdate (position : String)
  | BalanceUpdate (vault : String)
  deriving DecidableEq, Repr

/-- `WsRequest` enum from src/types.rs (outbound control request). -/
inductive WsRequest
  | Ping
  | Subscribe (channel : String)
  | Unsubscribe (channel : String)
  deriving DecidableEq, Repr

/-- `WsResponse` enum from src/types.rs (inbound server response envelope). -/
inductive WsResponse
  | Pong
  | Subscribed (channel : String)
  | Unsubscribed (channel : String)
  | Event (channel : String) (data : WsEvent)
  | Error (message : String)
  deriving DecidableEq, Repr

/-- Lower-case hex digit, as emitted by serde_json in \u escapes. -/
def hexDigit (n : Nat) : Char :=
  if n < 10 then Char.ofNat (48 + n) else Char.ofNat (87 + n)

/-- JSON string escaping of one character, following serde_json: the quote and
the backslash are escaped, control characters below 0x20 use the short escapes
\b \t \n \f \r or a \u00XX escape, all other characters pass through. -/
def jsonEscapeChar (c : Char) : String :=
  if c = '"' then "\\\""
  else if c = '\\' then "\\\\"
  else if c.toNat = 8 then "\\b"
  else if c.toNat = 9 then "\\t"
  else if c.toNat = 10 then "\\n"
  else if c.toNat = 12 then "\\f"
  else if c.toNat = 13 then "\\r"
  else if c.toNat < 32 then
    "\\u00" ++ String.mk [hexDigit (c.toNat / 16), hexDigit (c.toNat % 16)]
  else String.singleton c

/-- serde_json encoding of a Rust string as a JSON string literal: the escape
of each character in order, between double quotes. -/
def jsonEscapeString (s : String) : String :=
  "\"" ++ String.mk (s.data.flatMap (fun c => (jsonEscapeChar c).data)) ++ "\""

/-- serde_json::to_string of a `WsRequest`: internally tagged by the "type"
field (serde attribute tag = "type" with renamed variants), the tag first and
then the fields in declaration order. Serialization of these variants never
fails, so the function is total. -/
def wsRequestToJson : WsRequest → String
  | WsRequest.Ping => "\x7b\"type\":\"ping\"\x7d"
  | WsRequest.Subscribe channel =>
      "\x7b\"type\":\"subscribe\",\"channel\":" ++ jsonEscapeString channel ++ "\x7d"
  | WsRequest.Unsubscribe channel =>
      "\x7b\"type\":\"unsubscribe\",\"channel\":" ++ jsonEscapeString channel ++ "\x7d"

/-- The subscription registry `HashMap<String, broadcast::Sender<WsEvent>>`,
modelled as an association list with at most one entry per key; a broadcast
sender is identified by a natural-number handle. -/
abbrev Registry := List (String × Nat)

/-- HashMap::insert — the new binding replaces any prior binding of the key. -/
def insertSub (subs : Registry) (channel : String) (tx : Nat) : Registry :=
  (channel, tx) :: subs.filter (fun p => p.1 != channel)

/-- HashMap::remove — drops the binding of the key if present. -/
def removeSub (subs : Registry) (channel : String) : Registry :=
  subs.filter (fun p => p.1 != channel)

/-- HashMap::get — the broadcast sender bound to the channel, if any. -/
def lookupSub (subs : Registry) (channel : String) : Option Nat :=
  (subs.find? (fun p => p.1 == channel)).map (fun p => p.2)

/-- `WebSocketClient` struct from src/ws.rs. The send half of the split
transport (`Option<Arc<Mutex<WsSink>>>`) is modelled as an optional handle. -/
structure WebSocketClient where
  url : String
  sender : Option Nat
  subscriptions : Registry
  connection_status : ConnectionStatus
  deriving DecidableEq, Repr

/-- `WebSocketClient::new`. -/
def WebSocketClient.new (url : String) : WebSocketClient :=
  { url := url
    sender := none
    subscriptions := []
    connection_status := ConnectionStatus.Disconnected }

/-- `WebSocketClient::connect`. The outcome of the `connect_async` handshake
is an input: `Except.ok sink` yields the split send half, `Except.error e`
is the transport failure with display string `e`. The status is first set to
`Connecting`; on handshake failure the `?` operator returns the mapped
`EkidenError::WebSocket` error with the status left as it was; on success the
send half is stored and the status set to `Connected` (the spawned receive
loop is modelled separately by `handle_messages`). -/
def WebSocketClient.connect (c : WebSocketClient) (handshake : Except String Nat) :
    WebSocketClient × Except EkidenError Unit :=
  let c1 := { c with connection_status := ConnectionStatus.Connecting }
  match handshake with
  | Except.error e =>
      (c1, Except.error (EkidenError.WebSocket ("Failed to connect: " ++ e)))
  | Except.ok sink =>
      ({ c1 with sender := some sink
                 connection_status := ConnectionStatus.Connected },
       Except.ok ())

/-- `WebSocketClient::disconnect`: best-effort close of the sink, the send
half discarded, status set to `Disconnected`, the registry cleared. -/
def WebSocketClient.disconnect (c : WebSocketClient) :
    WebSocketClient × Except EkidenError Unit :=
  ({ c with sender := none
            connection_status := ConnectionStatus.Disconnected
            subscriptions := [] },
   Except.ok ())

/-- `WebSocketClient::is_connected`. -/
def WebSocketClient.is_connected (c : WebSocketClient) : Bool :=
  match c.connection_status with
  | ConnectionStatus.Connected => true
  | _ => false

/-- `WebSocketClient::send_request`. `sinkSend` is the outcome of
`sink.send(Message::Text(..))` on the open transport (`none` = success,
`some e` = a tungstenite error with display string `e`). On success the
result carries the exact text placed in the outgoing frame. -/
def WebSocketClient.send_request (c : WebSocketClient) (request : WsRequest)
    (sinkSend : Option String) : Except EkidenError String :=
  match c.sender with
  | none => Except.error (EkidenError.Network "WebSocket not connected")
  | some _ =>
      let message := wsRequestToJson request
      match sinkSend with
      | some e => Except.error (EkidenError.Tungstenite e)
      | none => Except.ok message

/-- `WebSocketClient::subscribe`. `tx` is the handle of the freshly created
broadcast channel (capacity 1000); the registry entry is inserted before the
subscribe control request is sent, and the returned receiver attaches to the
same endpoint `tx`. The third component lists the text frames placed on the
wire. -/
def WebSocketClient.subscribe (c : WebSocketClient) (channel : String) (tx : Nat)
    (sinkSend : Option String) :
    WebSocketClient × Except EkidenError Nat × List String :=
  let c1 := { c with subscriptions := insertSub c.subscriptions channel tx }
  match c1.send_request (WsRequest.Subscribe channel) sinkSend with
  | Except.error e => (c1, Except.error e, [])
  | Except.ok m => (c1, Except.ok tx, [m])

/-- `WebSocketClient::unsubscribe`. The registry entry is removed first, then
the unsubscribe control request is sent. The third component lists the text
frames placed on the wire. -/
def WebSocketClient.unsubscribe (c : WebSocketClient) (channel : String)
    (sinkSend : Option String) :
    WebSocketClient × Except EkidenError Unit × List String :=
  let c1 := { c with subscriptions := removeSub c.subscriptions channel }
  match c1.send_request (WsRequest.Unsubscribe channel) sinkSend with
  | Except.error e => (c1, Except.error e, [])
  | Except.ok m => (c1, Except.ok (), [m])

/-- `WebSocketClient::ping`. -/
def WebSocketClient.ping (c : WebSocketClient) (sinkSend : Option String) :
    Except EkidenError Unit :=
  match c.send_request WsRequest.Ping sinkSend with
  | Except.error e => Except.error e
  | Except.ok _ => Except.ok ()

/-- `WebSocketClient::active_subscriptions` — the registry keys. -/
def WebSocketClient.active_subscriptions (c : WebSocketClient) : List String :=
  c.subscriptions.map (fun p => p.1)

/-- `WebSocketClient::is_subscribed` — HashMap::contains_key. -/
def WebSocketClient.is_subscribed (c : WebSocketClient) (channel : String) : Bool :=
  c.subscriptions.any (fun p => p.1 == channel)

/-- A push performed on a fan-out endpoint: broadcast sender handle paired
with the payload handed to `broadcast::Sender::send`. -/
abbrev Delivery := Nat × WsEvent

/-- `WebSocketClient::process_message`. The serde_json::from_str outcome on
the raw frame text is the input `parsed` (`Except.error e` is a
deserialization failure with display string `e`). Returns the Rust result,
the registry as left by the call (the function only ever reads it through the
read guard), and the pushes performed on fan-out endpoints. A broadcast send
with no attached receivers still appears as a push here: the code logs that
error at debug level and returns Ok. -/
def process_message (parsed : Except String WsResponse) (subscriptions : Registry) :
    Except EkidenError Unit × Registry × List Delivery :=
  match parsed with
  | Except.error e => (Except.error (EkidenError.Json e), subscriptions, [])
  | Except.ok WsResponse.Pong => (Except.ok (), subscriptions, [])
  | Except.ok (WsResponse.Subscribed _) => (Except.ok (), subscriptions, [])
  | Except.ok (WsResponse.Unsubscribed _) => (Except.ok (), subscriptions, [])
  | Except.ok (WsResponse.Event channel data) =>
      (match lookupSub subscriptions channel with
       | some sender => (Except.ok (), subscriptions, [(sender, data)])
       | none => (Except.ok (), subscriptions, []))
  | Except.ok (WsResponse.Error _) => (Except.ok (), subscriptions, [])

/-- One inbound item of the receive loop in `WebSocketClient::handle_messages`.
A text frame carries the serde_json::from_str outcome on its contents; `Other`
stands for the remaining non-text, non-close message kinds, which the loop
ignores; `TransportFailure` is a transport-level stream error. -/
inductive InMessage
  | Text (parsed : Except String WsResponse)
  | Close
  | Other
  | TransportFailure (e : String)

/-- The shared state touched by the receive loop: the registry and the
connection status behind their locks. -/
structure LoopState where
  subscriptions : Registry
  connection_status : ConnectionStatus
  deriving DecidableEq, Repr

/-- `WebSocketClient::handle_messages`: folds the receive loop over the
stream of inbound items. A text frame is handed to `process_message` and any
error it returns is only logged; a close frame sets the status to
`Disconnected` and terminates the loop; a transport error sets the status to
`Failed` and terminates the loop; other message kinds are ignored. Returns
the final loop state and all fan-out pushes in order. -/
def handle_messages : List InMessage → LoopState → LoopState × List Delivery
  | [], st => (st, [])
  | InMessage.Text parsed :: rest, st =>
      let step := process_message parsed st.subscriptions
      let next := handle_messages rest { st with subscriptions := step.2.1 }
      (next.1, step.2.2 ++ next.2)
  | InMessage.Close :: _, st =>
      ({ st with connection_status := ConnectionStatus.Disconnected }, [])
  | InMessage.Other :: rest, st => handle_messages rest st
  | InMessage.TransportFailure e :: _, st =>
      ({ st with connection_status := ConnectionStatus.Failed e }, [])

/-- `broadcast::error::RecvError` from tokio, as matched in src/ws.rs. -/
inductive RecvError
  | Closed
  | Lagged (skipped : Nat)
  deriving DecidableEq, Repr

/-- `EventStream::recv` from src/ws.rs: maps the outcome of the underlying
`broadcast::Receiver::recv` call (which by the tokio API either yields an
event, or fails Closed, or fails Lagged) into the SDK result. -/
def EventStream.recv (underlying : Except RecvError WsEvent) :
    Except EkidenError WsEvent :=
  match underlying with
  | Except.ok ev => Except.ok ev
  | Except.error RecvError.Closed => Except.error EkidenError.ConnectionClosed
  | Except.error (RecvError.Lagged _) =>
      Except.error (EkidenError.General "Event stream lagged")

/-- The states a `WebSocketClient` can be driven into through its public
operations, starting from `new`; the `loopClose` and `loopFailed` steps are
the status writes performed by the background receive loop, which never
touches the registry. -/
inductive Reachable : WebSocketClient → Prop
  | new (url : String) : Reachable (WebSocketClient.new url)
  | connect {c : WebSocketClient} (handshake : Except String Nat) :
      Reachable c → Reachable (c.connect handshake).1
  | disconnect {c : WebSocketClient} : Reachable c → Reachable c.disconnect.1
  | subscribe {c : WebSocketClient} (channel : String) (tx : Nat)
      (sinkSend : Option String) :
      Reachable c → Reachable (c.subscribe channel tx sinkSend).1
  | unsubscribe {c : WebSocketClient} (channel : String) (sinkSend : Option String) :
      Reachable c → Reachable (c.unsubscribe channel sinkSend).1
  | loopClose {c : WebSocketClient} :
      Reachable c → Reachable { c with connection_status := ConnectionStatus.Disconnected }
  | loopFailed {c : WebSocketClient} (e : String) :
      Reachable c → Reachable { c with connection_status := ConnectionStatus.Failed e }

/-! ### Registry helper lemmas -/

theorem connect_fst_subscriptions (c : WebSocketClient) (handshake : Except String Nat) :
    (c.connect handshake).1.subscriptions = c.subscriptions := by
  cases handshake <;> rfl

theorem subscribe_fst (c : WebSocketClient) (channel : String) (tx : Nat)
    (sinkSend : Option String) :
    (c.subscribe channel tx sinkSend).1
      = { c with subscriptions := insertSub c.subscriptions channel tx } := by
  rcases c with ⟨url, sender, subs, status⟩
  cases sender <;> cases sinkSend <;> rfl

theorem unsubscribe_fst (c : WebSocketClient) (channel : String)
    (sinkSend : Option String) :
    (c.unsubscribe channel sinkSend).1
      = { c with subscriptions := removeSub c.subscriptions channel } := by
  rcases c with ⟨url, sender, subs, status⟩
  cases sender <;> cases sinkSend <;> rfl

theorem pairwise_insertSub (subs : Registry) (channel : String) (tx : Nat)
    (h : subs.Pairwise (fun a b => a.1 ≠ b.1)) :
    (insertSub subs channel tx).Pairwise (fun a b => a.1 ≠ b.1) := by
  refine List.Pairwise.cons ?_ (h.filter _)
  intro b hb
  have hbne := (List.mem_filter.mp hb).2
  simp only [bne_iff_ne, ne_eq] at hbne
  exact fun hc => hbne hc.symm

theorem pairwise_removeSub (subs : Registry) (channel : String)
    (h : subs.Pairwise (fun a b => a.1 ≠ b.1)) :
    (removeSub subs channel).Pairwise (fun a b => a.1 ≠ b.1) :=
  h.filter _

theorem lookupSub_insertSub_self (subs : Registry) (channel : String) (tx : Nat) :
    lookupSub (insertSub subs channel tx) channel = some tx := by
  simp [lookupSub, insertSub, List.find?]

theorem mem_insertSub_self (subs : Registry) (channel : String) (tx v : Nat)
    (h : (channel, v) ∈ insertSub subs channel tx) : v = tx := by
  simp only [insertSub, List.mem_cons, List.mem_filter, bne_self_eq_false,
    Bool.false_eq_true, and_false, or_false, Prod.mk.injEq, true_and] at h
  exact h

theorem lookupSub_removeSub_self (subs : Registry) (channel : String) :
    lookupSub (removeSub subs channel) channel = none := by
  rw [lookupSub, Option.map_eq_none', List.find?_eq_none]
  intro p hp
  have hbne := (List.mem_filter.mp hp).2
  simp only [bne_iff_ne, ne_eq] at hbne
  simpa using hbne

/-- Every reachable client state has pairwise-distinct registry keys: at most
one fan-out endpoint per channel name. -/
theorem reachable_distinct_keys {c : WebSocketClient} (h : Reachable c) :
    c.subscriptions.Pairwise (fun a b => a.1 ≠ b.1) := by
  induction h with
  | new url => exact List.Pairwise.nil
  | connect handshake _ ih => rw [connect_fst_subscriptions]; exact ih
  | disconnect _ _ => exact List.Pairwise.nil
  | subscribe channel tx sinkSend _ ih =>
      rw [subscribe_fst]; exact pairwise_insertSub _ _ _ ih
  | unsubscribe channel sinkSend _ ih =>
      rw [unsubscribe_fst]; exact pairwise_removeSub _ _ ih
  | loopClose _ ih => exact ih
  | loopFailed e _ ih => exact ih

/-! ## Claim theorems -/

/-- C1. Connection-status lifecycle: a freshly constructed client reports
`Disconnected`; immediately after a `connect` call that returns success the
status is `Connected`; after a `disconnect` call the status is `Disconnected`
and `active_subscriptions` is empty. -/
theorem connection_status_lifecycle (url : String) (c d : WebSocketClient)
    (handshake : Except String Nat)
    (hsucc : (c.connect handshake).2 = Except.ok ()) :
    (WebSocketClient.new url).connection_status = ConnectionStatus.Disconnected ∧
    (c.connect handshake).1.connection_status = ConnectionStatus.Connected ∧
    d.disconnect.1.connection_status = ConnectionStatus.Disconnected ∧
    d.disconnect.1.active_subscriptions = [] := by
  refine ⟨rfl, ?_, rfl, rfl⟩
  cases handshake with
  | error e => simp [WebSocketClient.connect] at hsucc
  | ok sink => rfl

/-- Witness for C1 at a concrete client and a successful handshake. -/
theorem connection_status_lifecycle_witness :
    (WebSocketClient.new "ws://localhost:3010/ws").connection_status
        = ConnectionStatus.Disconnected ∧
    ((WebSocketClient.new "ws://localhost:3010/ws").connect (Except.ok 0)).1.connection_status
        = ConnectionStatus.Connected ∧
    (WebSocketClient.new "ws://localhost:3010/ws").disconnect.1.connection_status
        = ConnectionStatus.Disconnected ∧
    (WebSocketClient.new "ws://localhost:3010/ws").disconnect.1.active_subscriptions = [] :=
  connection_status_lifecycle "ws://localhost:3010/ws"
    (WebSocketClient.new "ws://localhost:3010/ws")
    (WebSocketClient.new "ws://localhost:3010/ws") (Except.ok 0) rfl

/-- C2. Subscribing with no transport open (no send half stored) returns the
not-connected error rather than a receiver. -/
theorem subscribe_not_connected (c : WebSocketClient) (channel : String)
    (tx : Nat) (sinkSend : Option String) (h : c.sender = none) :
    (c.subscribe channel tx sinkSend).2.1
      = Except.error (EkidenError.Network "WebSocket not connected") := by
  simp [WebSocketClient.subscribe, WebSocketClient.send_request, h]

/-- Witness for C2 on a freshly constructed client. -/
theorem subscribe_not_connected_witness :
    ((WebSocketClient.new "ws://h").subscribe "trades/0xdef" 7 none).2.1
      = Except.error (EkidenError.Network "WebSocket not connected") :=
  subscribe_not_connected (WebSocketClient.new "ws://h") "trades/0xdef" 7 none rfl

/-- C7. If the transport handshake fails, `connect` returns the mapped
transport error and the status is left at `Connecting` — neither advanced to
`Connected` nor rolled back to `Disconnected`. -/
theorem connect_failure_status (c : WebSocketClient) (e : String) :
    (c.connect (Except.error e)).2
        = Except.error (EkidenError.WebSocket ("Failed to connect: " ++ e)) ∧
    (c.connect (Except.error e)).1.connection_status = ConnectionStatus.Connecting := by
  exact ⟨rfl, rfl⟩

/-- C8. `EventStream::recv` has exactly three outcomes: an event, the
permanent `ConnectionClosed` error exactly when the underlying broadcast
channel is closed, or the lagged failure exactly when the consumer fell
behind the fan-out buffer; no other failure is possible. -/
theorem recv_outcomes (underlying : Except RecvError WsEvent) :
    (∃ ev, EventStream.recv underlying = Except.ok ev ∧ underlying = Except.ok ev) ∨
    (EventStream.recv underlying = Except.error EkidenError.ConnectionClosed ∧
      underlying = Except.error RecvError.Closed) ∨
    (EventStream.recv underlying = Except.error (EkidenError.General "Event stream lagged") ∧
      ∃ skipped, underlying = Except.error (RecvError.Lagged skipped)) := by
  cases underlying with
  | ok ev => exact Or.inl ⟨ev, rfl, rfl⟩
  | error err =>
      cases err with
      | Closed => exact Or.inr (Or.inl ⟨rfl, rfl⟩)
      | Lagged skipped => exact Or.inr (Or.inr ⟨rfl, skipped, rfl⟩)

/-- C10. Failed subscribe is not atomic: with no transport open, `subscribe`
returns the not-connected error, yet the registry was already mutated — the
channel reads as subscribed and appears in `active_subscriptions`. -/
theorem subscribe_failure_not_atomic (c : WebSocketClient) (channel : String)
    (tx : Nat) (sinkSend : Option String) (h : c.sender = none) :
    (c.subscribe channel tx sinkSend).2.1
        = Except.error (EkidenError.Network "WebSocket not connected") ∧
    (c.subscribe channel tx sinkSend).1.is_subscribed channel = true ∧
    channel ∈ (c.subscribe channel tx sinkSend).1.active_subscriptions := by
  refine ⟨?_, ?_, ?_⟩
  · simp [WebSocketClient.subscribe, WebSocketClient.send_request, h]
  · simp [WebSocketClient.subscribe, WebSocketClient.send_request, h,
      WebSocketClient.is_subscribed, insertSub]
  · simp [WebSocketClient.subscribe, WebSocketClient.send_request, h,
      WebSocketClient.active_subscriptions, insertSub]

/-- Witness for C10 on a freshly constructed client. -/
theorem subscribe_failure_not_atomic_witness :
    ((WebSocketClient.new "ws://h").subscribe "user/0x1" 3 none).2.1
        = Except.error (EkidenError.Network "WebSocket not connected") ∧
    ((WebSocketClient.new "ws://h").subscribe "user/0x1" 3 none).1.is_subscribed "user/0x1"
        = true ∧
    "user/0x1" ∈ ((WebSocketClient.new "ws://h").subscribe "user/0x1" 3 none).1.active_subscriptions :=
  subscribe_failure_not_atomic (WebSocketClient.new "ws://h") "user/0x1" 3 none rfl

/-- C3. Unknown-channel drop: processing an `Event` frame whose channel has no
registry entry returns success, leaves the registry unchanged, and performs no
push on any fan-out endpoint. -/
theorem unknown_channel_drop (channel : String) (data : WsEvent)
    (subs : Registry) (h : lookupSub subs channel = none) :
    process_message (Except.ok (WsResponse.Event channel data)) subs
      = (Except.ok (), subs, []) := by
  simp [process_message, h]

/-- Witness for C3: an event for a channel absent from a concrete registry. -/
theorem unknown_channel_drop_witness :
    lookupSub [("trades/0x2", 4)] "orderbook/0xabc" = none ∧
    process_message
        (Except.ok (WsResponse.Event "orderbook/0xabc" (WsEvent.Trade "0xabc" 100 2 "buy" 1700)))
        [("trades/0x2", 4)]
      = (Except.ok (), [("trades/0x2", 4)], []) :=
  ⟨rfl, unknown_channel_drop "orderbook/0xabc" (WsEvent.Trade "0xabc" 100 2 "buy" 1700)
      [("trades/0x2", 4)] rfl⟩

/-- C4. Malformed-frame tolerance: a text frame that fails to deserialize is
dropped by the receive loop with the status and the registry untouched, and
the rest of the stream is processed exactly as it would be without that frame
— the loop neither terminates nor delivers anything for it. -/
theorem malformed_frame_tolerated (e : String) (rest : List InMessage)
    (st : LoopState) :
    handle_messages (InMessage.Text (Except.error e) :: rest) st
      = handle_messages rest st := by
  simp [handle_messages, process_message]

/-- C5. Registry uniqueness: every reachable client state holds at most one
fan-out endpoint per channel name, and subscribing on a channel binds it to
the newly created endpoint only — the old endpoint no longer appears in the
registry for that channel. -/
theorem registry_unique_and_replacing (c : WebSocketClient) (h : Reachable c)
    (channel : String) (tx : Nat) (sinkSend : Option String) :
    c.subscriptions.Pairwise (fun a b => a.1 ≠ b.1) ∧
    lookupSub (c.subscribe channel tx sinkSend).1.subscriptions channel = some tx ∧
    (∀ v, (channel, v) ∈ (c.subscribe channel tx sinkSend).1.subscriptions → v = tx) := by
  refine ⟨reachable_distinct_keys h, ?_, ?_⟩
  · rw [subscribe_fst]
    exact lookupSub_insertSub_self c.subscriptions channel tx
  · intro v hv
    rw [subscribe_fst] at hv
    exact mem_insertSub_self c.subscriptions channel tx v hv

/-- Witness for C5 at a reachable state that already holds an endpoint for the
channel being resubscribed. -/
theorem registry_unique_and_replacing_witness :
    (((WebSocketClient.new "ws://h").connect (Except.ok 0)).1.subscribe "trades/0x1" 9
        none).1.subscriptions.Pairwise (fun a b => a.1 ≠ b.1) ∧
    lookupSub (((((WebSocketClient.new "ws://h").connect (Except.ok 0)).1.subscribe
        "trades/0x1" 9 none).1.subscribe "trades/0x1" 5 none).1.subscriptions)
        "trades/0x1" = some 5 ∧
    (∀ v, ("trades/0x1", v) ∈ ((((WebSocketClient.new "ws://h").connect
        (Except.ok 0)).1.subscribe "trades/0x1" 9 none).1.subscribe "trades/0x1" 5
        none).1.subscriptions → v = 5) :=
  registry_unique_and_replacing
    (((WebSocketClient.new "ws://h").connect (Except.ok 0)).1.subscribe "trades/0x1" 9 none).1
    (Reachable.subscribe "trades/0x1" 9 none
      (Reachable.connect (Except.ok 0) (Reachable.new "ws://h")))
    "trades/0x1" 5 none

/-- C6. Idempotent unsubscribe on an open transport: `unsubscribe` returns
success whether or not the channel has a registry entry, removes any entry for
the channel (other channels untouched), and places exactly the serialized
`Unsubscribe` control request on the wire. -/
theorem unsubscribe_idempotent (c : WebSocketClient) (channel : String)
    (sink : Nat) (h : c.sender = some sink) :
    (c.unsubscribe channel none).2.1 = Except.ok () ∧
    (c.unsubscribe channel none).2.2 = [wsRequestToJson (WsRequest.Unsubscribe channel)] ∧
    lookupSub (c.unsubscribe channel none).1.subscriptions channel = none ∧
    (∀ p, p ∈ c.subscriptions → p.1 ≠ channel →
      p ∈ (c.unsubscribe channel none).1.subscriptions) := by
  rcases c with ⟨url, sender, subs, status⟩
  cases sender with
  | none => exact absurd h (by simp)
  | some s =>
      refine ⟨rfl, rfl, lookupSub_removeSub_self subs channel, ?_⟩
      intro p hp hne
      have : (p.1 != channel) = true := by simpa using hne
      exact List.mem_filter.mpr ⟨hp, this⟩

/-- Witness for C6: unsubscribing a never-subscribed channel on a freshly
connected client. -/
theorem unsubscribe_idempotent_witness :
    ((((WebSocketClient.new "ws://h").connect (Except.ok 2)).1.unsubscribe
        "candles/0x9/1m" none).2.1 = Except.ok ()) ∧
    ((((WebSocketClient.new "ws://h").connect (Except.ok 2)).1.unsubscribe
        "candles/0x9/1m" none).2.2
      = [wsRequestToJson (WsRequest.Unsubscribe "candles/0x9/1m")]) ∧
    lookupSub ((((WebSocketClient.new "ws://h").connect (Except.ok 2)).1.unsubscribe
        "candles/0x9/1m" none).1.subscriptions) "candles/0x9/1m" = none ∧
    (∀ p, p ∈ (((WebSocketClient.new "ws://h").connect (Except.ok 2)).1).subscriptions →
      p.1 ≠ "candles/0x9/1m" →
      p ∈ ((((WebSocketClient.new "ws://h").connect (Except.ok 2)).1.unsubscribe
        "candles/0x9/1m" none).1.subscriptions)) :=
  unsubscribe_idempotent ((WebSocketClient.new "ws://h").connect (Except.ok 2)).1
    "candles/0x9/1m" 2 rfl

/-! ### JSON escaping helper lemmas -/

theorem jsonEscapeChar_plain (c : Char) (h1 : c ≠ '"') (h2 : c ≠ '\\')
    (h3 : 32 ≤ c.toNat) : jsonEscapeChar c = String.singleton c := by
  unfold jsonEscapeChar
  rw [if_neg h1, if_neg h2, if_neg (by omega), if_neg (by omega),
    if_neg (by omega), if_neg (by omega), if_neg (by omega), if_neg (by omega)]

theorem flatMap_escape_plain (l : List Char)
    (h : ∀ c, c ∈ l → c ≠ '"' ∧ c ≠ '\\' ∧ 32 ≤ c.toNat) :
    l.flatMap (fun c => (jsonEscapeChar c).data) = l := by
  induction l with
  | nil => rfl
  | cons c cs ih =>
      obtain ⟨h1, h2, h3⟩ := h c (List.mem_cons_self c cs)
      rw [List.flatMap_cons, jsonEscapeChar_plain c h1 h2 h3,
        ih (fun d hd => h d (List.mem_cons_of_mem c hd))]
      rfl

theorem jsonEscapeString_plain (s : String)
    (h : ∀ c, c ∈ s.data → c ≠ '"' ∧ c ≠ '\\' ∧ 32 ≤ c.toNat) :
    jsonEscapeString s = "\"" ++ s ++ "\"" := by
  rcases s with ⟨l⟩
  simp only [jsonEscapeString]
  rw [flatMap_escape_plain l h]

/-- C9. Outbound wire format: the control requests serialize to the JSON
objects discriminated by the "type" field — for a channel of ordinary
characters (no quote, no backslash, no control character) the channel field
is the channel text between quotes — and `send_request` on an open transport
places exactly that serialized text in the outgoing frame. -/
theorem outbound_wire_format (c : WebSocketClient) (sink : Nat)
    (h : c.sender = some sink) (request : WsRequest) (channel : String)
    (hplain : ∀ ch, ch ∈ channel.data → ch ≠ '"' ∧ ch ≠ '\\' ∧ 32 ≤ ch.toNat) :
    wsRequestToJson WsRequest.Ping = "\x7b\"type\":\"ping\"\x7d" ∧
    wsRequestToJson (WsRequest.Subscribe channel)
        = "\x7b\"type\":\"subscribe\",\"channel\":\"" ++ channel ++ "\"\x7d" ∧
    wsRequestToJson (WsRequest.Unsubscribe channel)
        = "\x7b\"type\":\"unsubscribe\",\"channel\":\"" ++ channel ++ "\"\x7d" ∧
    c.send_request request none = Except.ok (wsRequestToJson request) := by
  refine ⟨rfl, ?_, ?_, ?_⟩
  · simp only [wsRequestToJson]
    rw [jsonEscapeString_plain channel hplain]
    simp only [String.append_assoc]
    rw [← String.append_assoc "\x7b\"type\":\"subscribe\",\"channel\":" "\""]
    rfl
  · simp only [wsRequestToJson]
    rw [jsonEscapeString_plain channel hplain]
    simp only [String.append_assoc]
    rw [← String.append_assoc "\x7b\"type\":\"unsubscribe\",\"channel\":" "\""]
    rfl
  · rcases c with ⟨url, sender, subs, status⟩
    cases sender with
    | none => exact absurd h (by simp)
    | some s => rfl

/-- Witness for C9 on a concrete connected client and channel. -/
theorem outbound_wire_format_witness :
    wsRequestToJson WsRequest.Ping = "\x7b\"type\":\"ping\"\x7d" ∧
    wsRequestToJson (WsRequest.Subscribe "orderbook/0x123")
        = "\x7b\"type\":\"subscribe\",\"channel\":\"" ++ "orderbook/0x123" ++ "\"\x7d" ∧
    wsRequestToJson (WsRequest.Unsubscribe "orderbook/0x123")
        = "\x7b\"type\":\"unsubscribe\",\"channel\":\"" ++ "orderbook/0x123" ++ "\"\x7d" ∧
    ((WebSocketClient.new "ws://h").connect (Except.ok 1)).1.send_request
        (WsRequest.Subscribe "orderbook/0x123") none
      = Except.ok (wsRequestToJson (WsRequest.Subscribe "orderbook/0x123")) :=
  outbound_wire_format ((WebSocketClient.new "ws://h").connect (Except.ok 1)).1 1 rfl
    (WsRequest.Subscribe "orderbook/0x123") "orderbook/0x123" (by decide)

end EkidenWs
